import Mathlib

/-!
Verification of the floatscope reference-table generator
(`src/generate_reference.py`) against its specification.

The script imports `decode_float` and the three OCP format objects from the
external `gfloat` library; those are modelled here from the specification
(§4.1–§4.2), while the driver itself — the string rendering `val_str`
(lines 23–30), the per-format entries loop (lines 17–35) and the printed
summary (lines 41–51) — is embedded directly from the source.
Floating-point values are represented exactly as rationals: every value a
minifloat can decode to is a dyadic rational, and the spec (§4.2) guarantees
decoding is exact.
-/

attribute [local semireducible] Rat.mul Rat.add Rat.sub Rat.inv Rat.ofScientific

set_option maxRecDepth 40000

namespace FloatScope

/-- Modelled from the spec (§3, §4.1): a Format Descriptor — the immutable
layout data carried by the gfloat format objects the script imports:
bit widths, exponent bias, and the special-value policy (whether the
all-ones exponent with zero mantissa is ±∞, and which mantissa codes at the
maximum exponent are NaN). -/
structure FormatDescriptor where
  total_bits : Nat
  exponent_bits : Nat
  mantissa_bits : Nat
  bias : Int
  has_infinity : Bool
  nan_mantissa_codes : List Nat
deriving DecidableEq

/-- A Decoded Value (spec §3): Zero and Infinity carry a sign (+1 or -1),
Finite carries the exact rational value, NaN carries nothing. -/
inductive DecodedValue where
  | Zero (sign : Int)
  | Finite (val : Rat)
  | Infinity (sign : Int)
  | NaN
deriving DecidableEq

/-- 2^e as an exact rational, for a possibly negative exponent
(`mkRat 1 d` is the exact rational 1/d). -/
def pow2 (e : Int) : Rat :=
  if 0 ≤ e then ((2 : Rat) ^ e.toNat) else mkRat 1 (2 ^ (-e).toNat)

/-- Modelled from the spec (§4.2): the gfloat `decode_float` algorithm the
script calls at line 20 but does not implement.  Field extraction, the
zero/subnormal range, the special-value policy at the all-ones exponent
(with fallthrough to a normal number when the mantissa code is not a
reserved NaN code), and the normal-number formula.  `mkRat a b` is the
exact fraction a/b, so the subnormal value is
sign * mantissa_field * 2^(1 - bias - mantissa_bits) and the normal value
is sign * (1 + mantissa_field / 2^mantissa_bits) * 2^(exponent - bias),
exactly as in spec §4.2 steps 3 and 5. -/
def decode_float (d : FormatDescriptor) (bits : Nat) : DecodedValue :=
  let sign_bit := bits / 2 ^ (d.total_bits - 1) % 2
  let exponent_field := bits / 2 ^ d.mantissa_bits % 2 ^ d.exponent_bits
  let mantissa_field := bits % 2 ^ d.mantissa_bits
  let sign : Int := if sign_bit = 1 then -1 else 1
  if exponent_field = 0 then
    if mantissa_field = 0 then
      .Zero sign
    else
      .Finite ((sign : Rat) * (mantissa_field : Rat) *
        pow2 (1 - d.bias - (d.mantissa_bits : Int)))
  else if exponent_field = 2 ^ d.exponent_bits - 1 ∧
      (d.has_infinity = true ∨ d.nan_mantissa_codes ≠ []) then
    if d.has_infinity = true ∧ mantissa_field = 0 then
      .Infinity sign
    else if mantissa_field ∈ d.nan_mantissa_codes then
      .NaN
    else
      .Finite ((sign : Rat) * (1 + mkRat mantissa_field (2 ^ d.mantissa_bits)) *
        pow2 ((exponent_field : Int) - d.bias))
  else
    .Finite ((sign : Rat) * (1 + mkRat mantissa_field (2 ^ d.mantissa_bits)) *
      pow2 ((exponent_field : Int) - d.bias))

/-- Modelled from the spec (§2, §12): the OCP e5m2 format object imported by
the script — 5 exponent bits, 2 mantissa bits, bias 15, standard IEEE-style
Inf/NaN (every nonzero mantissa code at the all-ones exponent is NaN). -/
def format_info_ocp_e5m2 : FormatDescriptor :=
  { total_bits := 8, exponent_bits := 5, mantissa_bits := 2, bias := 15,
    has_infinity := true, nan_mantissa_codes := [1, 2, 3] }

/-- Modelled from the spec and the source comment at line 10
(`num_high_nans=1, max=448`): the OCP e4m3 format object — 4 exponent bits,
3 mantissa bits, bias 7, finite-only (no infinities), with only the
all-ones mantissa code at the maximum exponent reserved for NaN. -/
def format_info_ocp_e4m3 : FormatDescriptor :=
  { total_bits := 8, exponent_bits := 4, mantissa_bits := 3, bias := 7,
    has_infinity := false, nan_mantissa_codes := [7] }

/-- Modelled from the spec: the OCP e2m1 format object — 2 exponent bits,
1 mantissa bit, bias 1, with neither infinities nor NaNs. -/
def format_info_ocp_e2m1 : FormatDescriptor :=
  { total_bits := 4, exponent_bits := 2, mantissa_bits := 1, bias := 1,
    has_infinity := false, nan_mantissa_codes := [] }

/-- The `FORMATS` table of the source (lines 8–13): format name mapped to
the format object and the total bit width, in source order. -/
def FORMATS : List (String × FormatDescriptor × Nat) :=
  [("f8e5m2", (format_info_ocp_e5m2, 8)),
   ("f8e4m3fn", (format_info_ocp_e4m3, 8)),
   ("f4e2m1", (format_info_ocp_e2m1, 4))]

/-- Smallest number of decimal fraction digits that expresses `1/den`
exactly, found by fuelled search (all denominators here are powers of two,
so the search terminates well within the fuel). -/
def decScaleAux : Nat → Nat → Nat → Nat
  | 0, _, a => a
  | fuel + 1, den, a => if 10 ^ a % den = 0 then a else decScaleAux fuel den (a + 1)

def decScale (den : Nat) : Nat := decScaleAux 100 den 0

/-- Modelled from the spec (§4.3): Python `repr` on a float — the shortest
decimal string that round-trips, in fixed notation with a trailing `.0` for
integers, switching to scientific notation (`d.dddde-NN`, exponent padded
to two digits) when the decimal exponent of the leading significant digit
is below -4 or at least 16.  For the dyadic rationals produced by these
minifloat formats the shortest round-tripping decimal is the exact decimal
expansion, which is what this computes. -/
def pyRepr (q : Rat) : String :=
  if q = 0 then "0.0"
  else
    let sgn := if q < 0 then "-" else ""
    let a := decScale q.den
    let n := q.num.natAbs * (10 ^ a / q.den)
    let ds := Nat.toDigits 10 n
    let nd := ds.length
    let e10 : Int := (nd : Int) - 1 - (a : Int)
    if e10 < -4 ∨ 16 ≤ e10 then
      let mant := if nd = 1 then ds else ds.take 1 ++ '.' :: ds.drop 1
      let esign := if e10 < 0 then "-" else "+"
      let eds := Nat.toDigits 10 e10.natAbs
      let eds := if eds.length < 2 then '0' :: eds else eds
      sgn ++ String.mk mant ++ "e" ++ esign ++ String.mk eds
    else if a = 0 then
      sgn ++ String.mk ds ++ ".0"
    else if a < nd then
      sgn ++ String.mk (ds.take (nd - a)) ++ "." ++ String.mk (ds.drop (nd - a))
    else
      sgn ++ "0." ++ String.mk (List.replicate (a - nd) '0') ++ String.mk ds

/-- The rendering branch of the source (lines 22–30): NaN and the two
infinities get fixed strings; a zero with negative sign (the
`val == 0.0 and math.copysign(1.0, val) < 0` test) renders as `"-0"`;
everything else — including positive zero — falls through to `repr(val)`.
A `Finite` value is never zero (zero bit patterns decode to `Zero`), so the
negative-zero test is false on the `Finite` branch. -/
def val_str (v : DecodedValue) : String :=
  match v with
  | .NaN => "NaN"
  | .Infinity s => if 0 < s then "Infinity" else "-Infinity"
  | .Zero s => if s < 0 then "-0" else pyRepr 0
  | .Finite q => pyRepr q

/-- The `format(bits, f'0{total_bits}b')` call of the source (line 32):
binary digits of `bits`, zero-padded on the left to `total_bits`. -/
def binaryStr (total_bits bits : Nat) : String :=
  let ds := Nat.toDigits 2 bits
  String.mk (List.replicate (total_bits - ds.length) '0' ++ ds)

/-- A Reference Entry (source line 33): `{bits, binary, decimal}`. -/
structure Entry where
  bits : Nat
  binary : String
  decimal : String
deriving DecidableEq

/-- The per-format entries loop of the source (lines 18–33). -/
def entriesFor (fmt : FormatDescriptor) (total_bits : Nat) : List Entry :=
  (List.range (2 ^ total_bits)).map fun bits =>
    { bits := bits
      binary := binaryStr total_bits bits
      decimal := val_str (decode_float fmt bits) }

/-- The `result` mapping of the source (lines 15–35): each configured
format name paired with its entry list, in `FORMATS` order. -/
def result : List (String × List Entry) :=
  FORMATS.map fun p => (p.1, entriesFor p.2.1 p.2.2)

/-- Is `needle` a prefix of `hay`? -/
def listPrefixOf : List Char → List Char → Bool
  | [], _ => true
  | _ :: _, [] => false
  | c :: cs, d :: ds => c == d && listPrefixOf cs ds

/-- Does the haystack contain `needle` as a contiguous substring? -/
def listContainsSub (needle : List Char) : List Char → Bool
  | [] => listPrefixOf needle []
  | c :: cs => listPrefixOf needle (c :: cs) || listContainsSub needle cs

/-- The Python substring membership test `needle in hay` used at source
line 43 (`"Infinity" in e["decimal"]`). -/
def strContains (hay needle : String) : Bool :=
  listContainsSub needle.data hay.data

/-- The per-format summary printed by the source (lines 41–50): entry
count, number of entries whose decimal equals `"NaN"`, number of entries
whose decimal contains `"Infinity"`, and the first four (`entries[:4]`)
and last four (`entries[-4:]`) entries as binary → decimal pairs. -/
structure Summary where
  count : Nat
  nans : Nat
  infs : Nat
  first4 : List (String × String)
  last4 : List (String × String)
deriving DecidableEq

/-- The summary computation of the source (lines 41–50); Python's
`entries[-4:]` is `drop (length - 4)` (and the whole list when shorter
than 4, matching the truncated subtraction). -/
def summaryFor (entries : List Entry) : Summary :=
  { count := entries.length
    nans := (entries.filter fun e => e.decimal == "NaN").length
    infs := (entries.filter fun e => strContains e.decimal "Infinity").length
    first4 := (entries.take 4).map fun e => (e.binary, e.decimal)
    last4 := (entries.drop (entries.length - 4)).map fun e => (e.binary, e.decimal) }

/-- Negate the sign of a Decoded Value; NaN carries no sign. -/
def negValue : DecodedValue → DecodedValue
  | .Zero s => .Zero (-s)
  | .Finite q => .Finite (-q)
  | .Infinity s => .Infinity (-s)
  | .NaN => .NaN

/-- Two decode results "differ only in sign" for Finite/Zero/Infinity
(spec §8): when the first is not NaN, the second is the first with its
sign negated; a NaN first result imposes no constraint. -/
def differOnlyInSign (v w : DecodedValue) : Bool :=
  match v with
  | .NaN => true
  | v => w == negValue v

/-- Does this Decoded Value denote an infinity (of either sign)? -/
def isInfinityB : DecodedValue → Bool
  | .Infinity _ => true
  | _ => false

/-- Does this Decoded Value denote a NaN? -/
def isNaNB : DecodedValue → Bool
  | .NaN => true
  | _ => false

/-- Absolute value of a rational. -/
def ratAbs (q : Rat) : Rat := if q < 0 then -q else q

/-- Magnitude of a finite decode result: 0 for a zero, the absolute value
for a finite value, and none for Infinity or NaN. -/
def finiteMag : DecodedValue → Option Rat
  | .Zero _ => some 0
  | .Finite q => some (ratAbs q)
  | _ => none

/-- For a fixed sign bit, the magnitudes of the finite (including zero)
decode results of a format, in increasing order of the combined
exponent+mantissa bit-field (the low `total_bits - 1` bits). -/
def magSeq (fmt : FormatDescriptor) (total_bits : Nat) (signBit : Bool) : List Rat :=
  (List.range (2 ^ (total_bits - 1))).filterMap fun low =>
    finiteMag (decode_float fmt ((if signBit then 2 ^ (total_bits - 1) else 0) + low))

/-- Read a string of binary digit characters back as a natural number. -/
def binToNat (s : String) : Nat :=
  s.data.foldl (fun acc c => 2 * acc + (if c == '1' then 1 else 0)) 0

/-- Adjacent-pair non-decrease of a list of rationals, as an executable
check. -/
def nonDecreasing : List Rat → Bool
  | a :: b :: rest => decide (a ≤ b) && nonDecreasing (b :: rest)
  | _ => true

/-- A list passing the adjacent-pair check is chainwise non-decreasing. -/
theorem chain_le_of_nonDecreasing : ∀ l : List Rat, nonDecreasing l = true →
    List.Chain' (fun a b : Rat => a ≤ b) l := by
  intro l
  induction l with
  | nil => intro _; exact List.chain'_nil
  | cons a rest ih =>
    cases rest with
    | nil => intro _; exact List.chain'_singleton a
    | cons b rest2 =>
      intro h
      have h1 : (a ≤ b) ∧ nonDecreasing (b :: rest2) = true := by
        simpa [nonDecreasing] using h
      exact List.chain'_cons.mpr ⟨h1.1, ih h1.2⟩

/-- C1 (counterexample): the claim that bit pattern 0 renders as the exact
string "0" is false.  For the f8e5m2 format, pattern 0 decodes to positive
zero, but positive zero fails the negative-zero test of the source
(line 27) and falls through to `repr(val)`, which renders `0.0` as the
string "0.0", not "0". -/
theorem C1_counterexample :
    decode_float format_info_ocp_e5m2 0 = .Zero 1 ∧
    val_str (decode_float format_info_ocp_e5m2 0) = "0.0" ∧
    val_str (decode_float format_info_ocp_e5m2 0) ≠ "0" := by decide

/-- C1 (amended): for every configured format, bit pattern 0 decodes to
positive zero whose rendered decimal string is exactly "0.0", and the bit
pattern with only the sign bit set decodes to negative zero whose rendered
decimal string is exactly "-0". -/
theorem C1_zero_pair_amended :
    ∀ p ∈ FORMATS,
      decode_float p.2.1 0 = .Zero 1 ∧
      val_str (decode_float p.2.1 0) = "0.0" ∧
      decode_float p.2.1 (2 ^ (p.2.2 - 1)) = .Zero (-1) ∧
      val_str (decode_float p.2.1 (2 ^ (p.2.2 - 1))) = "-0" := by decide

/-- Witness for C1 (amended), instantiated at the f8e5m2 format. -/
theorem C1_zero_pair_amended_witness :
    decode_float format_info_ocp_e5m2 0 = .Zero 1 ∧
    val_str (decode_float format_info_ocp_e5m2 0) = "0.0" ∧
    decode_float format_info_ocp_e5m2 (2 ^ (8 - 1)) = .Zero (-1) ∧
    val_str (decode_float format_info_ocp_e5m2 (2 ^ (8 - 1))) = "-0" :=
  C1_zero_pair_amended ("f8e5m2", (format_info_ocp_e5m2, 8)) (by decide)

/-- C2: for the f8e5m2 format, bit pattern 0b01111100 (all-ones exponent,
zero mantissa) decodes to positive Infinity rendered "Infinity", and bit
pattern 0b01111111 decodes to NaN rendered "NaN". -/
theorem C2_e5m2_specials :
    decode_float format_info_ocp_e5m2 0b01111100 = .Infinity 1 ∧
    val_str (decode_float format_info_ocp_e5m2 0b01111100) = "Infinity" ∧
    decode_float format_info_ocp_e5m2 0b01111111 = .NaN ∧
    val_str (decode_float format_info_ocp_e5m2 0b01111111) = "NaN" := by decide

/-- C3: for the f8e4m3fn format, every finite decoded magnitude over the
256 bit patterns is at most 448 and 448 is attained (at pattern
0b01111110), so the maximum finite magnitude is exactly 448; exactly one
bit pattern with sign bit 0 and exactly one with sign bit 1 decode to NaN;
and no bit pattern decodes to Infinity of either sign. -/
theorem C3_e4m3fn_range_and_specials :
    (∀ bits < 2 ^ 8, ((finiteMag (decode_float format_info_ocp_e4m3 bits)).getD 0) ≤ 448) ∧
    finiteMag (decode_float format_info_ocp_e4m3 0b01111110) = some 448 ∧
    ((List.range (2 ^ 8)).filter fun bits =>
      bits / 2 ^ 7 == 0 && isNaNB (decode_float format_info_ocp_e4m3 bits)).length = 1 ∧
    ((List.range (2 ^ 8)).filter fun bits =>
      bits / 2 ^ 7 == 1 && isNaNB (decode_float format_info_ocp_e4m3 bits)).length = 1 ∧
    ∀ bits < 2 ^ 8, isInfinityB (decode_float format_info_ocp_e4m3 bits) = false := by decide

/-- Witness for C3, instantiating both bounded quantifiers at the
maximum-magnitude pattern 126. -/
theorem C3_e4m3fn_range_and_specials_witness :
    ((finiteMag (decode_float format_info_ocp_e4m3 126)).getD 0) ≤ 448 ∧
    isInfinityB (decode_float format_info_ocp_e4m3 126) = false :=
  ⟨C3_e4m3fn_range_and_specials.1 126 (by decide),
   C3_e4m3fn_range_and_specials.2.2.2.2 126 (by decide)⟩

/-- C4: for the f4e2m1 format, none of the 16 bit patterns decodes to NaN
or Infinity, and the full enumeration for the format contains exactly 16
entries. -/
theorem C4_e2m1_no_specials :
    (∀ bits < 2 ^ 4, isNaNB (decode_float format_info_ocp_e2m1 bits) = false ∧
      isInfinityB (decode_float format_info_ocp_e2m1 bits) = false) ∧
    (entriesFor format_info_ocp_e2m1 4).length = 16 := by decide

/-- Witness for C4, instantiated at bit pattern 15. -/
theorem C4_e2m1_no_specials_witness :
    isNaNB (decode_float format_info_ocp_e2m1 15) = false ∧
    isInfinityB (decode_float format_info_ocp_e2m1 15) = false :=
  C4_e2m1_no_specials.1 15 (by decide)

/-- C5: for every configured format the entry list has exactly 2^total_bits
entries whose bits fields are 0, 1, …, 2^total_bits - 1 in order (entry at
index i has bits = i), and each entry's binary field has length exactly
total_bits, consists of binary digit characters only, and reads back as the
entry's bits value — i.e. it is the zero-padded binary rendering. -/
theorem C5_entries_enumeration :
    ∀ p ∈ FORMATS,
      (entriesFor p.2.1 p.2.2).length = 2 ^ p.2.2 ∧
      (entriesFor p.2.1 p.2.2).map (fun e => e.bits) = List.range (2 ^ p.2.2) ∧
      ∀ e ∈ entriesFor p.2.1 p.2.2,
        e.binary.length = p.2.2 ∧ binToNat e.binary = e.bits ∧
        (e.binary.data.all fun c => c == '0' || c == '1') = true := by decide

/-- Witness for C5, instantiated at the f4e2m1 format. -/
theorem C5_entries_enumeration_witness :
    (entriesFor format_info_ocp_e2m1 4).length = 2 ^ 4 :=
  (C5_entries_enumeration ("f4e2m1", (format_info_ocp_e2m1, 4)) (by decide)).1

/-- C6: for every configured format and every bit pattern, decoding the
pattern and decoding the pattern with its sign bit flipped (XOR with
2^(total_bits-1)) yield results that differ only in sign whenever the
first result is Finite, Zero or Infinity. -/
theorem C6_sign_symmetry :
    ∀ p ∈ FORMATS, ∀ bits < 2 ^ p.2.2,
      differOnlyInSign (decode_float p.2.1 bits)
        (decode_float p.2.1 (bits ^^^ 2 ^ (p.2.2 - 1))) = true := by decide

/-- Witness for C6, instantiated at the f8e5m2 format and bit pattern 1. -/
theorem C6_sign_symmetry_witness :
    differOnlyInSign (decode_float format_info_ocp_e5m2 1)
      (decode_float format_info_ocp_e5m2 (1 ^^^ 2 ^ (8 - 1))) = true :=
  C6_sign_symmetry ("f8e5m2", (format_info_ocp_e5m2, 8)) (by decide) 1 (by decide)

/-- C7: for every configured format and either fixed sign bit, the
magnitudes of the finite (including zero) decoded values are pairwise
non-decreasing as the combined unsigned exponent+mantissa bit-field value
(the low total_bits - 1 bits) increases over the patterns that decode to
finite values. -/
theorem C7_monotonicity :
    ∀ p ∈ FORMATS, ∀ sb : Bool,
      List.Pairwise (fun a b : Rat => a ≤ b) (magSeq p.2.1 p.2.2 sb) := by
  have h : ∀ p ∈ FORMATS, ∀ sb : Bool,
      nonDecreasing (magSeq p.2.1 p.2.2 sb) = true := by decide
  intro p hp sb
  exact List.chain'_iff_pairwise.mp (chain_le_of_nonDecreasing _ (h p hp sb))

/-- Witness for C7, instantiated at the f8e4m3fn format with sign bit 0. -/
theorem C7_monotonicity_witness :
    List.Pairwise (fun a b : Rat => a ≤ b) (magSeq format_info_ocp_e4m3 8 false) :=
  C7_monotonicity ("f8e4m3fn", (format_info_ocp_e4m3, 8)) (by decide) false

/-- C8: for every configured format the summary reports an entry count
equal to 2^total_bits, a NaN count equal to the number of entries whose
decimal string equals "NaN", an Infinity count equal to the number of
entries whose decimal string contains "Infinity" — which equals the number
rendered "Infinity" plus the number rendered "-Infinity", so both signs are
counted — and exactly the first four and last four entries of the sequence
as binary → decimal pairs. -/
theorem C8_summary :
    ∀ p ∈ FORMATS,
      (summaryFor (entriesFor p.2.1 p.2.2)).count = 2 ^ p.2.2 ∧
      (summaryFor (entriesFor p.2.1 p.2.2)).nans =
        ((entriesFor p.2.1 p.2.2).filter fun e => e.decimal == "NaN").length ∧
      (summaryFor (entriesFor p.2.1 p.2.2)).infs =
        ((entriesFor p.2.1 p.2.2).filter fun e => strContains e.decimal "Infinity").length ∧
      (summaryFor (entriesFor p.2.1 p.2.2)).infs =
        ((entriesFor p.2.1 p.2.2).filter fun e => e.decimal == "Infinity").length +
        ((entriesFor p.2.1 p.2.2).filter fun e => e.decimal == "-Infinity").length ∧
      (summaryFor (entriesFor p.2.1 p.2.2)).first4 =
        ((entriesFor p.2.1 p.2.2).take 4).map (fun e => (e.binary, e.decimal)) ∧
      (summaryFor (entriesFor p.2.1 p.2.2)).last4 =
        ((entriesFor p.2.1 p.2.2).drop ((entriesFor p.2.1 p.2.2).length - 4)).map
          (fun e => (e.binary, e.decimal)) := by decide

/-- Witness for C8, instantiated at the f4e2m1 format. -/
theorem C8_summary_witness :
    (summaryFor (entriesFor format_info_ocp_e2m1 4)).count = 2 ^ 4 :=
  (C8_summary ("f4e2m1", (format_info_ocp_e2m1, 4)) (by decide)).1

/-- C9: the produced top-level mapping has exactly the keys "f8e5m2",
"f8e4m3fn" and "f4e2m1", in that order, with entry lists of lengths 256,
256 and 16 respectively, and no other formats. -/
theorem C9_result_keys :
    result.map (fun p => (p.1, p.2.length)) =
      [("f8e5m2", 256), ("f8e4m3fn", 256), ("f4e2m1", 16)] := by decide

/-- C10: for every configured format, an entry's decimal field is the
exact string "-0" if and only if the decoded value is a zero with negative
sign, and the string "-0.0" never appears as a decimal field. -/
theorem C10_neg_zero_rendering :
    ∀ p ∈ FORMATS, ∀ e ∈ entriesFor p.2.1 p.2.2,
      (e.decimal = "-0" ↔ decode_float p.2.1 e.bits = .Zero (-1)) ∧
      e.decimal ≠ "-0.0" := by decide

/-- Witness for C10, instantiated at the f4e2m1 negative-zero entry. -/
theorem C10_neg_zero_rendering_witness :
    (({ bits := 8, binary := "1000", decimal := "-0" } : Entry).decimal = "-0" ↔
      decode_float format_info_ocp_e2m1
        ({ bits := 8, binary := "1000", decimal := "-0" } : Entry).bits = .Zero (-1)) ∧
    ({ bits := 8, binary := "1000", decimal := "-0" } : Entry).decimal ≠ "-0.0" :=
  C10_neg_zero_rendering ("f4e2m1", (format_info_ocp_e2m1, 4)) (by decide)
    { bits := 8, binary := "1000", decimal := "-0" } (by decide)

end FloatScope
